import Mathlib

/-!
Verification of the `Owm` weather segment (`src/segments/owm.go`).

Go strings are byte sequences; we embed them as `List Nat` of byte values.
Lean string literals are converted with `goStr` (UTF-8 encoding, so non-ASCII
glyph literals such as "°F" or "\ue30d" map to their exact Go byte strings).
-/

/-- A Go string: its sequence of bytes. -/
abbrev GoStr := List Nat

/-- UTF-8 byte encoding of one code point, as byte values. -/
def utf8Bytes (c : Char) : List Nat :=
  let cp := c.toNat
  if cp < 0x80 then [cp]
  else if cp < 0x800 then [0xC0 + cp / 64, 0x80 + cp % 64]
  else if cp < 0x10000 then [0xE0 + cp / 4096, 0x80 + cp / 64 % 64, 0x80 + cp % 64]
  else [0xF0 + cp / 262144, 0x80 + cp / 4096 % 64, 0x80 + cp / 64 % 64, 0x80 + cp % 64]

/-- The Go byte string denoted by a Lean string literal. -/
def goStr (s : String) : GoStr :=
  s.data.flatMap utf8Bytes

/-! ### `net/url.QueryEscape`

Faithful byte-level model of Go's query-component escaping: alphanumerics and
`-`, `_`, `.`, `~` are kept, a space becomes `+`, every other byte becomes
`%XX` with uppercase hex digits. -/

/-- Unreserved bytes that `net/url.shouldEscape` leaves alone in a query component. -/
def shouldEscape (b : Nat) : Bool :=
  !((97 ≤ b && b ≤ 122) || (65 ≤ b && b ≤ 90) || (48 ≤ b && b ≤ 57) ||
    b == 45 || b == 95 || b == 46 || b == 126)

/-- Uppercase hexadecimal digit byte for a nibble. -/
def upperHexDigit (n : Nat) : Nat :=
  if n < 10 then 48 + n else 55 + n

/-- How `net/url.escape` renders a single byte in a query component. -/
def escapeByte (b : Nat) : List Nat :=
  if shouldEscape b then
    if b = 32 then [43] else [37, upperHexDigit (b / 16), upperHexDigit (b % 16)]
  else [b]

/-- `net/url.QueryEscape` over byte strings. -/
def queryEscape (s : GoStr) : GoStr :=
  s.flatMap escapeByte

/-! ### Host collaborators

The `properties` and `runtime` packages of the repository are not part of the
source under verification; they are modelled from the spec (sections 3, 4.1 and
6), as are the standard-library collaborators (`encoding/json` via an abstract
parse oracle, `net/http` via an abstract request oracle). -/

/-- Modelled from the spec: the host property store.  `str` is the string-typed
property lookup (`none` = key absent), `int` the integer-typed one. -/
structure Props where
  str : String → Option GoStr
  int : String → Option Int

/-- Modelled from the spec: `properties.OneOf` — "a first-non-empty-of lookup
across several aliased keys"; the caller-supplied default is returned when no
listed key holds a non-empty value. -/
def oneOf (p : Props) (defaultValue : GoStr) : List String → GoStr
  | [] => defaultValue
  | k :: ks =>
    match p.str k with
    | some v => if v.length = 0 then oneOf p defaultValue ks else v
    | none => oneOf p defaultValue ks

/-- Modelled from the spec: `properties.GetString(key, default)`. -/
def getString (p : Props) (k : String) (defaultValue : GoStr) : GoStr :=
  (p.str k).getD defaultValue

/-- Modelled from the spec: `properties.GetInt(key, default)`. -/
def getInt (p : Props) (k : String) (defaultValue : Int) : Int :=
  (p.int k).getD defaultValue

/-- Modelled from the spec: the generic cache-timeout property key shared with
other segments (`properties.CacheTimeout`). -/
def CacheTimeout : String := "cache_timeout"

/-- Modelled from the spec: the generic HTTP-timeout property key shared with
other segments (`properties.HTTPTimeout`). -/
def HTTPTimeout : String := "http_timeout"

/-- Modelled from the spec: the host default for the cache timeout; positive
(caching is on by default), exact value immaterial to the claims. -/
def DefaultCacheTimeout : Int := 1440

/-- Modelled from the spec: the host default for the HTTP timeout. -/
def DefaultHTTPTimeout : Int := 20

/-- One weather observation of the parsed payload (Go struct `weather`). -/
structure weather where
  ShortDescription : GoStr
  Description : GoStr
  TypeID : GoStr
deriving DecidableEq

/-- The embedded temperature of the parsed payload (Go struct `temperature`);
the float64 value is embedded as a rational. -/
structure temperature where
  Value : ℚ
deriving DecidableEq

/-- The parsed API payload (Go struct `owmDataResponse`). -/
structure owmDataResponse where
  Data : List weather
  temperature : temperature
deriving DecidableEq

/-- The segment's mutable fields (Go struct `Owm`, minus the injected
collaborators). -/
structure Owm where
  Temperature : Int
  Weather : GoStr
  URL : GoStr
  units : GoStr
  UnitIcon : GoStr
deriving DecidableEq

/-- Modelled from the spec: the host `runtime.Environment` collaborators —
environment-variable lookup (unset = empty string), the TTL cache store's
`Get`, the HTTP client `(url, timeoutMillis) → body or transport error`, and
`encoding/json.Unmarshal` into `owmDataResponse` as an abstract parse oracle. -/
structure World where
  getenv : String → GoStr
  cacheGet : String → Option GoStr
  http : GoStr → Int → Except GoStr GoStr
  parse : GoStr → Except GoStr owmDataResponse

/-- Observable side effects of one invocation: cache keys read, request URLs
fetched, cache writes `(key, value, ttl)` issued, and errors reported to the
diagnostic sink. -/
structure Effects where
  cacheReads : List String
  httpCalls : List GoStr
  cacheWrites : List (String × GoStr × Int)
  errors : List GoStr
deriving DecidableEq

/-! ### The segment constants (source lines 25-48) -/

def APIKey : String := "api_key"
def Location : String := "location"
def Latitude : String := "lat"
def Longitude : String := "lon"
/-- Source name `Units`; renamed, the name collides with Mathlib. -/
def UnitsKey : String := "units"
def CacheKeyResponse : String := "owm_response"
def CacheKeyURL : String := "owm_url"
def PoshOWMAPIKey : String := "POSH_OWM_API_KEY"
def PoshOWMLocationKey : String := "POSH_OWM_LOCATION"
def PoshOWMLatKey : String := "POSH_OWM_LAT"
def PoshOWMLonKey : String := "POSH_OWM_LON"

/-! ### The segment code -/

/-- `Owm.getPropOrEnvVar` (source lines 79-85): property lookup with default,
falling back to an environment variable only when the result is empty. -/
def getPropOrEnvVar (p : Props) (w : World) (envKey : String) (defaultValue : GoStr)
    (propKeyOptions : List String) : GoStr :=
  let v := oneOf p defaultValue propKeyOptions
  if v.length = 0 then w.getenv envKey else v

/-- URL construction of `getResult` (source lines 116-125): query-by-place-name
when the resolved location is non-empty, otherwise query-by-coordinates; the
location and the coordinates are percent-encoded, units and api key are
interpolated verbatim.  (In the source, `lat` and `lon` are resolved only in
the second branch; their resolution is effect-free, so passing the resolved
values in is observationally identical.) -/
def buildOwmURL (location lat lon units apikey : GoStr) : GoStr :=
  if location.length > 0 then
    goStr "https://api.openweathermap.org/data/2.5/weather?q=" ++ queryEscape location ++
      goStr "&units=" ++ units ++ goStr "&appid=" ++ apikey
  else
    goStr "https://api.openweathermap.org/data/2.5/weather?lat=" ++ queryEscape lat ++
      goStr "&lon=" ++ queryEscape lon ++ goStr "&units=" ++ units ++
      goStr "&appid=" ++ apikey

/-- The fetch path of `Owm.getResult` (source lines 104-141): api-key check,
URL construction, HTTP request, JSON parse, and the conditional cache write.
`reads` carries the cache reads already performed by the caller. -/
def owmFetch (p : Props) (w : World) (d : Owm) (cacheTimeout : Int)
    (reads : List String) : Except GoStr owmDataResponse × Owm × Effects :=
  let apikey := getPropOrEnvVar p w PoshOWMAPIKey (goStr ".") [APIKey, "apiKey"]
  if apikey.length = 0 then
    (.error (goStr "no api key found"), d, ⟨reads, [], [], []⟩)
  else
    let units := getString p UnitsKey (goStr "standard")
    let httpTimeout := getInt p HTTPTimeout DefaultHTTPTimeout
    let location := getPropOrEnvVar p w PoshOWMLocationKey (goStr "De Bilt,NL") [Location]
    let lat := getPropOrEnvVar p w PoshOWMLatKey (goStr "0") [Latitude]
    let lon := getPropOrEnvVar p w PoshOWMLonKey (goStr "0") [Longitude]
    let url := buildOwmURL location lat lon units apikey
    let d := { d with URL := url }
    match w.http url httpTimeout with
    | .error e => (.error e, d, ⟨reads, [url], [], []⟩)
    | .ok body =>
      match w.parse body with
      | .error e => (.error e, d, ⟨reads, [url], [], []⟩)
      | .ok response =>
        if cacheTimeout > 0 then
          (.ok response, d,
            ⟨reads, [url],
              [(CacheKeyResponse, body, cacheTimeout), (CacheKeyURL, url, cacheTimeout)], []⟩)
        else (.ok response, d, ⟨reads, [url], [], []⟩)

/-- `Owm.getResult` (source lines 87-142): cache lookup gated by the cache
timeout, then the fetch path on a miss. -/
def getResult (p : Props) (w : World) (d : Owm) :
    Except GoStr owmDataResponse × Owm × Effects :=
  let cacheTimeout := getInt p CacheTimeout DefaultCacheTimeout
  if cacheTimeout > 0 then
    match w.cacheGet CacheKeyResponse with
    | some val =>
      match w.parse val with
      | .error e => (.error e, d, ⟨[CacheKeyResponse], [], [], []⟩)
      | .ok response =>
        (.ok response, { d with URL := (w.cacheGet CacheKeyURL).getD [] },
          ⟨[CacheKeyResponse, CacheKeyURL], [], [], []⟩)
    | none => owmFetch p w d cacheTimeout [CacheKeyResponse]
  else owmFetch p w d cacheTimeout []

/-- `int(math.Round(v))` (source line 158): round half away from zero
(`math.Round` returns the nearest integer, ties away from zero; the `int`
conversion of the integral result is exact). -/
def goRound (q : ℚ) : Int :=
  if 0 ≤ q then (q + 1 / 2).floor else (q - 1 / 2).ceil

/-- The icon switch of `setStatus` (source lines 159-197): exact-match lookup
of the first observation's type code, empty glyph for unmatched codes. -/
def iconOf (id : GoStr) : GoStr :=
  if id = goStr "01n" then goStr "\ue32b"
  else if id = goStr "01d" then goStr "\ue30d"
  else if id = goStr "02n" then goStr "\ue37e"
  else if id = goStr "02d" then goStr "\ue302"
  else if id = goStr "03n" ∨ id = goStr "03d" then goStr "\ue33d"
  else if id = goStr "04n" ∨ id = goStr "04d" then goStr "\ue312"
  else if id = goStr "09n" ∨ id = goStr "09d" then goStr "\ue319"
  else if id = goStr "10n" then goStr "\ue325"
  else if id = goStr "10d" then goStr "\ue308"
  else if id = goStr "11n" then goStr "\ue32a"
  else if id = goStr "11d" then goStr "\ue30f"
  else if id = goStr "13n" ∨ id = goStr "13d" then goStr "\ue31a"
  else if id = goStr "50n" ∨ id = goStr "50d" then goStr "\ue313"
  else goStr ""

/-- The unit-icon switch of `setStatus` (source lines 200-210): default glyph
`\ue33e`, then `imperial` → `°F`, `metric` → `°C`, empty or `standard` → `°K`. -/
def unitIconOf (units : GoStr) : GoStr :=
  if units = goStr "imperial" then goStr "°F"
  else if units = goStr "metric" then goStr "°C"
  else if units = goStr "" ∨ units = goStr "standard" then goStr "°K"
  else goStr "\ue33e"

/-- `Owm.setStatus` (source lines 144-212). -/
def setStatus (p : Props) (w : World) (d : Owm) : Except GoStr Unit × Owm × Effects :=
  let units := getString p UnitsKey (goStr "standard")
  match getResult p w d with
  | (.error e, d, eff) => (.error e, d, eff)
  | (.ok q, d, eff) =>
    match q.Data with
    | [] => (.error (goStr "No data found"), d, eff)
    | w0 :: _ =>
      (.ok (),
        { d with
          Temperature := goRound q.temperature.Value
          Weather := iconOf w0.TypeID
          units := units
          UnitIcon := unitIconOf units },
        eff)

/-- `Owm.Enabled` (source lines 64-73): collapse the pipeline's error to a
boolean, reporting it to the diagnostic sink. -/
def Enabled (p : Props) (w : World) (d : Owm) : Bool × Owm × Effects :=
  match setStatus p w d with
  | (.error e, d, eff) => (false, d, { eff with errors := eff.errors ++ [e] })
  | (.ok _, d, eff) => (true, d, eff)

/-! ### URL query analysis

Spec-side view of a URL: the key/value pairs of its query string (the part
after the first `?`, split on `&`, each chunk split at its first `=`). -/

/-- The part of a byte string after the first occurrence of byte `c`. -/
def afterByte (c : Nat) : List Nat → List Nat
  | [] => []
  | b :: rest => if b = c then rest else afterByte c rest

/-- Split a byte string on every occurrence of byte `c`. -/
def splitOnByte (c : Nat) : List Nat → List (List Nat)
  | [] => [[]]
  | b :: rest =>
    match splitOnByte c rest with
    | [] => [[]]
    | chunk :: chunks => if b = c then [] :: chunk :: chunks else (b :: chunk) :: chunks

/-- The part of a byte string before the first occurrence of byte `c`. -/
def takeUntilByte (c : Nat) (l : List Nat) : List Nat :=
  l.takeWhile (fun b => b != c)

/-- The query parameters of a URL byte string: key/value pairs. -/
def queryParams (u : GoStr) : List (GoStr × GoStr) :=
  (splitOnByte 38 (afterByte 63 u)).map fun chunk =>
    (takeUntilByte 61 chunk, afterByte 61 chunk)

/-- The keys of a URL's query parameters. -/
def queryKeys (u : GoStr) : List GoStr :=
  (queryParams u).map Prod.fst

/-! ### Concrete fixtures -/

/-- A freshly initialized segment (Go zero values). -/
def owm0 : Owm := ⟨0, [], [], [], []⟩

/-- An empty property store. -/
def props0 : Props := ⟨fun _ => none, fun _ => none⟩

/-- A host with no environment variables, an empty cache and a failing
transport. -/
def world0 : World :=
  ⟨fun _ => [], fun _ => none, fun _ _ => .error (goStr "boom"),
    fun _ => .error (goStr "bad json")⟩

/-- A clear-sky observation (type code `01d`). -/
def obs1 : weather := ⟨goStr "Clear", goStr "clear sky", goStr "01d"⟩

/-- A payload with one observation and temperature 15.5. -/
def resp1 : owmDataResponse := ⟨[obs1], ⟨31 / 2⟩⟩

/-- A payload with an empty observation sequence. -/
def respEmpty : owmDataResponse := ⟨[], ⟨0⟩⟩

/-- Properties with `units` set to the unrecognized value `unknown`. -/
def props2 : Props := ⟨fun k => if k = UnitsKey then some (goStr "unknown") else none,
  fun _ => none⟩

/-- A host whose cache holds a response that parses to `resp1`. -/
def world2 : World :=
  ⟨fun _ => [], fun k => if k = CacheKeyResponse then some (goStr "cached") else none,
    fun _ _ => .error (goStr "no net"),
    fun v => if v = goStr "cached" then .ok resp1 else .error (goStr "bad json")⟩

/-- A segment state carrying values from a prior successful run. -/
def d4 : Owm := { owm0 with URL := goStr "old" }

/-- A host with an empty cache whose fetch succeeds but parses to an empty
observation sequence. -/
def world4 : World :=
  ⟨fun _ => [], fun _ => none, fun _ _ => .ok (goStr "{}"), fun _ => .ok respEmpty⟩

/-- Properties with the cache timeout set to `0` (caching disabled). -/
def propsCT0 : Props := ⟨fun _ => none, fun k => if k = CacheTimeout then some 0 else none⟩

/-- A host whose cache holds a value that fails to deserialize. -/
def world8 : World :=
  ⟨fun _ => [], fun k => if k = CacheKeyResponse then some (goStr "junk") else none,
    fun _ _ => .error (goStr "no net"), fun _ => .error (goStr "bad json")⟩

theorem afterByte_cons_self (c : Nat) (l : List Nat) : afterByte c (c :: l) = l := by
  simp [afterByte]

theorem afterByte_append_of_not_mem {c : Nat} {xs : List Nat} (h : c ∉ xs) (ys : List Nat) :
    afterByte c (xs ++ ys) = afterByte c ys := by
  induction xs with
  | nil => rfl
  | cons x xs ih =>
    have hx : x ≠ c := fun hxc => h (hxc ▸ List.mem_cons_self x xs)
    simp only [List.cons_append, afterByte, if_neg hx]
    exact ih (fun hm => h (List.mem_cons_of_mem x hm))

theorem splitOnByte_ne_nil (c : Nat) (l : List Nat) : splitOnByte c l ≠ [] := by
  induction l with
  | nil => simp [splitOnByte]
  | cons b rest ih =>
    simp only [splitOnByte]
    cases hr : splitOnByte c rest with
    | nil => simp
    | cons chunk chunks =>
      by_cases hb : b = c <;> simp [hb]

theorem splitOnByte_cons_self (c : Nat) (l : List Nat) :
    splitOnByte c (c :: l) = [] :: splitOnByte c l := by
  simp only [splitOnByte]
  cases hr : splitOnByte c l with
  | nil => exact absurd hr (splitOnByte_ne_nil c l)
  | cons chunk chunks => simp

theorem splitOnByte_append_of_not_mem {c : Nat} {xs : List Nat} (h : c ∉ xs) (ys : List Nat) :
    splitOnByte c (xs ++ ys) = (splitOnByte c ys).modifyHead (xs ++ ·) := by
  induction xs with
  | nil =>
    cases hr : splitOnByte c ys with
    | nil => exact absurd hr (splitOnByte_ne_nil c ys)
    | cons chunk chunks => simp [hr]
  | cons x xs ih =>
    have hx : x ≠ c := fun hxc => h (hxc ▸ List.mem_cons_self x xs)
    have hxs : c ∉ xs := fun hm => h (List.mem_cons_of_mem x hm)
    cases hr : splitOnByte c ys with
    | nil => exact absurd hr (splitOnByte_ne_nil c ys)
    | cons chunk chunks =>
      have ihr := ih hxs
      rw [hr] at ihr
      simp only [List.modifyHead] at ihr
      simp only [List.cons_append, splitOnByte, if_neg hx, List.modifyHead]
      rw [List.append_eq, ihr]

theorem splitOnByte_of_not_mem {c : Nat} {l : List Nat} (h : c ∉ l) :
    splitOnByte c l = [l] := by
  have h2 := splitOnByte_append_of_not_mem h ([] : List Nat)
  simpa [splitOnByte] using h2

theorem takeUntilByte_append {c : Nat} {xs : List Nat} (h : c ∉ xs) (ys : List Nat) :
    takeUntilByte c (xs ++ c :: ys) = xs := by
  induction xs with
  | nil => simp [takeUntilByte, List.takeWhile_cons]
  | cons x xs ih =>
    have hx : x ≠ c := fun hxc => h (hxc ▸ List.mem_cons_self x xs)
    have hxs : c ∉ xs := fun hm => h (List.mem_cons_of_mem x hm)
    have hne : (x != c) = true := by simp [hx]
    have h2 := ih hxs
    simp only [takeUntilByte] at h2 ⊢
    simp [List.takeWhile_cons, hne, h2]

/-! ### Facts about `queryEscape` -/

theorem upperHexDigit_ne (n : Nat) : upperHexDigit n ≠ 38 ∧ upperHexDigit n ≠ 61 := by
  unfold upperHexDigit
  split <;> omega

theorem escapeByte_ne {b x : Nat} (hx : x ∈ escapeByte b) : x ≠ 38 ∧ x ≠ 61 := by
  unfold escapeByte at hx
  by_cases hb : shouldEscape b
  · rw [if_pos hb] at hx
    by_cases h32 : b = 32
    · rw [if_pos h32] at hx
      simp at hx
      omega
    · rw [if_neg h32] at hx
      rcases List.mem_cons.mp hx with h | hx
      · omega
      rcases List.mem_cons.mp hx with h | hx
      · exact h ▸ upperHexDigit_ne (b / 16)
      rcases List.mem_cons.mp hx with h | hx
      · exact h ▸ upperHexDigit_ne (b % 16)
      · simp at hx
  · rw [if_neg hb] at hx
    simp at hx
    subst hx
    constructor <;> rintro rfl <;> simp [shouldEscape] at hb

theorem queryEscape_not_mem_amp (s : GoStr) : 38 ∉ queryEscape s := by
  intro hm
  rcases List.mem_flatMap.mp hm with ⟨b, _, hx⟩
  exact (escapeByte_ne hx).1 rfl

theorem queryEscape_not_mem_eq (s : GoStr) : 61 ∉ queryEscape s := by
  intro hm
  rcases List.mem_flatMap.mp hm with ⟨b, _, hx⟩
  exact (escapeByte_ne hx).2 rfl

theorem splitOnByte_three {a b c : List Nat} (ha : 38 ∉ a) (hb : 38 ∉ b) (hc : 38 ∉ c) :
    splitOnByte 38 (a ++ 38 :: (b ++ 38 :: c)) = [a, b, c] := by
  rw [splitOnByte_append_of_not_mem ha, splitOnByte_cons_self,
    splitOnByte_append_of_not_mem hb, splitOnByte_cons_self, splitOnByte_of_not_mem hc]
  simp [List.modifyHead]

theorem splitOnByte_four {a b c d : List Nat} (ha : 38 ∉ a) (hb : 38 ∉ b) (hc : 38 ∉ c)
    (hd : 38 ∉ d) :
    splitOnByte 38 (a ++ 38 :: (b ++ 38 :: (c ++ 38 :: d))) = [a, b, c, d] := by
  rw [splitOnByte_append_of_not_mem ha, splitOnByte_cons_self, splitOnByte_three hb hc hd]
  simp [List.modifyHead]

theorem chunkParam {k v : List Nat} (hk : 61 ∉ k) :
    (takeUntilByte 61 (k ++ 61 :: v), afterByte 61 (k ++ 61 :: v)) = (k, v) := by
  rw [takeUntilByte_append hk, afterByte_append_of_not_mem hk, afterByte_cons_self]

/-- On the place-name branch, the query parameters of the built URL. -/
theorem queryParams_place {location : GoStr} (lat lon : GoStr) {units apikey : GoStr}
    (hloc : location.length > 0) (hu : 38 ∉ units) (ha : 38 ∉ apikey) :
    queryParams (buildOwmURL location lat lon units apikey) =
      [(goStr "q", queryEscape location), (goStr "units", units), (goStr "appid", apikey)] := by
  have hshape : buildOwmURL location lat lon units apikey =
      goStr "https://api.openweathermap.org/data/2.5/weather" ++ 63 ::
        ((goStr "q" ++ 61 :: queryEscape location) ++ 38 ::
          ((goStr "units" ++ 61 :: units) ++ 38 :: (goStr "appid" ++ 61 :: apikey))) := by
    unfold buildOwmURL
    rw [if_pos hloc]
    have h1 : goStr "https://api.openweathermap.org/data/2.5/weather?q=" =
        goStr "https://api.openweathermap.org/data/2.5/weather" ++ 63 :: (goStr "q" ++ [61]) := by
      decide
    have h2 : goStr "&units=" = 38 :: (goStr "units" ++ [61]) := by decide
    have h3 : goStr "&appid=" = 38 :: (goStr "appid" ++ [61]) := by decide
    rw [h1, h2, h3]
    simp
  have hq38 : (38 : Nat) ∉ goStr "q" ++ 61 :: queryEscape location := by
    simp only [List.mem_append, List.mem_cons]
    push_neg
    exact ⟨by decide, by decide, queryEscape_not_mem_amp location⟩
  have hu38 : (38 : Nat) ∉ goStr "units" ++ 61 :: units := by
    simp only [List.mem_append, List.mem_cons]
    push_neg
    exact ⟨by decide, by decide, hu⟩
  have ha38 : (38 : Nat) ∉ goStr "appid" ++ 61 :: apikey := by
    simp only [List.mem_append, List.mem_cons]
    push_neg
    exact ⟨by decide, by decide, ha⟩
  have hpre : (63 : Nat) ∉ goStr "https://api.openweathermap.org/data/2.5/weather" := by decide
  rw [queryParams, hshape, afterByte_append_of_not_mem hpre, afterByte_cons_self,
    splitOnByte_three hq38 hu38 ha38]
  simp only [List.map]
  rw [chunkParam (by decide), chunkParam (by decide), chunkParam (by decide)]

/-- On the coordinates branch, the query parameters of the built URL. -/
theorem queryParams_coords (location lat lon : GoStr) {units apikey : GoStr}
    (hloc : ¬location.length > 0) (hu : 38 ∉ units) (ha : 38 ∉ apikey) :
    queryParams (buildOwmURL location lat lon units apikey) =
      [(goStr "lat", queryEscape lat), (goStr "lon", queryEscape lon),
        (goStr "units", units), (goStr "appid", apikey)] := by
  have hshape : buildOwmURL location lat lon units apikey =
      goStr "https://api.openweathermap.org/data/2.5/weather" ++ 63 ::
        ((goStr "lat" ++ 61 :: queryEscape lat) ++ 38 ::
          ((goStr "lon" ++ 61 :: queryEscape lon) ++ 38 ::
            ((goStr "units" ++ 61 :: units) ++ 38 :: (goStr "appid" ++ 61 :: apikey)))) := by
    unfold buildOwmURL
    rw [if_neg hloc]
    have h1 : goStr "https://api.openweathermap.org/data/2.5/weather?lat=" =
        goStr "https://api.openweathermap.org/data/2.5/weather" ++ 63 ::
          (goStr "lat" ++ [61]) := by decide
    have h2 : goStr "&lon=" = 38 :: (goStr "lon" ++ [61]) := by decide
    have h3 : goStr "&units=" = 38 :: (goStr "units" ++ [61]) := by decide
    have h4 : goStr "&appid=" = 38 :: (goStr "appid" ++ [61]) := by decide
    rw [h1, h2, h3, h4]
    simp
  have hlat38 : (38 : Nat) ∉ goStr "lat" ++ 61 :: queryEscape lat := by
    simp only [List.mem_append, List.mem_cons]
    push_neg
    exact ⟨by decide, by decide, queryEscape_not_mem_amp lat⟩
  have hlon38 : (38 : Nat) ∉ goStr "lon" ++ 61 :: queryEscape lon := by
    simp only [List.mem_append, List.mem_cons]
    push_neg
    exact ⟨by decide, by decide, queryEscape_not_mem_amp lon⟩
  have hu38 : (38 : Nat) ∉ goStr "units" ++ 61 :: units := by
    simp only [List.mem_append, List.mem_cons]
    push_neg
    exact ⟨by decide, by decide, hu⟩
  have ha38 : (38 : Nat) ∉ goStr "appid" ++ 61 :: apikey := by
    simp only [List.mem_append, List.mem_cons]
    push_neg
    exact ⟨by decide, by decide, ha⟩
  have hpre : (63 : Nat) ∉ goStr "https://api.openweathermap.org/data/2.5/weather" := by decide
  rw [queryParams, hshape, afterByte_append_of_not_mem hpre, afterByte_cons_self,
    splitOnByte_four hlat38 hlon38 hu38 ha38]
  simp only [List.map]
  rw [chunkParam (by decide), chunkParam (by decide), chunkParam (by decide),
    chunkParam (by decide)]

/-! ### Pipeline lemmas -/

/-- With a non-empty default, `oneOf` never returns an empty value. -/
theorem oneOf_ne_nil (p : Props) {defaultValue : GoStr} (keys : List String)
    (h : defaultValue ≠ []) : oneOf p defaultValue keys ≠ [] := by
  induction keys with
  | nil => exact h
  | cons k ks ih =>
    unfold oneOf
    cases hp : p.str k with
    | none => exact ih
    | some v =>
      by_cases hv : v.length = 0
      · simpa [hv] using ih
      · simpa [hv] using List.length_pos.mp (Nat.pos_of_ne_zero hv)

/-- With a non-empty default, `getPropOrEnvVar` returns the property-layer
value and never consults the environment variable. -/
theorem getPropOrEnvVar_eq_oneOf (p : Props) (w : World) (envKey : String)
    {defaultValue : GoStr} (keys : List String) (h : defaultValue ≠ []) :
    getPropOrEnvVar p w envKey defaultValue keys = oneOf p defaultValue keys := by
  unfold getPropOrEnvVar
  have hne := oneOf_ne_nil p keys h
  have hlen : ¬(oneOf p defaultValue keys).length = 0 := by
    simpa [List.length_eq_zero] using hne
  simp [hlen]

/-- With a non-empty default, `getPropOrEnvVar` never returns an empty value. -/
theorem getPropOrEnvVar_ne_nil (p : Props) (w : World) (envKey : String)
    {defaultValue : GoStr} (keys : List String) (h : defaultValue ≠ []) :
    getPropOrEnvVar p w envKey defaultValue keys ≠ [] := by
  rw [getPropOrEnvVar_eq_oneOf p w envKey keys h]
  exact oneOf_ne_nil p keys h

/-- The fetch path only ever assigns the `URL` field. -/
theorem owmFetch_preserves (p : Props) (w : World) (d : Owm) (ct : Int) (reads : List String) :
    ((owmFetch p w d ct reads).2.1).Temperature = d.Temperature ∧
    ((owmFetch p w d ct reads).2.1).Weather = d.Weather ∧
    ((owmFetch p w d ct reads).2.1).UnitIcon = d.UnitIcon ∧
    ((owmFetch p w d ct reads).2.1).units = d.units := by
  unfold owmFetch
  simp only []
  generalize getPropOrEnvVar p w PoshOWMAPIKey (goStr ".") [APIKey, "apiKey"] = ak
  generalize buildOwmURL (getPropOrEnvVar p w PoshOWMLocationKey (goStr "De Bilt,NL") [Location])
    (getPropOrEnvVar p w PoshOWMLatKey (goStr "0") [Latitude])
    (getPropOrEnvVar p w PoshOWMLonKey (goStr "0") [Longitude])
    (getString p UnitsKey (goStr "standard")) ak = url
  by_cases hk : ak.length = 0
  · simp [hk]
  · rw [if_neg hk]
    rcases hh : w.http url (getInt p HTTPTimeout DefaultHTTPTimeout) with e | body
    · simp [hh]
    · rcases hp : w.parse body with e | response
      · simp [hh, hp]
      · by_cases hct : ct > 0 <;> simp [hh, hp, hct]

/-- `getResult` only ever assigns the `URL` field; the three derived fields and
`units` are untouched. -/
theorem getResult_preserves (p : Props) (w : World) (d : Owm) :
    ((getResult p w d).2.1).Temperature = d.Temperature ∧
    ((getResult p w d).2.1).Weather = d.Weather ∧
    ((getResult p w d).2.1).UnitIcon = d.UnitIcon ∧
    ((getResult p w d).2.1).units = d.units := by
  unfold getResult
  simp only []
  by_cases hct : getInt p CacheTimeout DefaultCacheTimeout > 0
  · rw [if_pos hct]
    rcases hc : w.cacheGet CacheKeyResponse with _ | val
    · exact owmFetch_preserves p w d _ _
    · rcases hp : w.parse val with e | response
      · simp [hp]
      · simp [hp]
  · rw [if_neg hct]
    exact owmFetch_preserves p w d _ _

/-- `setStatus` propagates a `getResult` error unchanged. -/
theorem setStatus_of_getResult_error {p : Props} {w : World} {d d1 : Owm} {e : GoStr}
    {eff : Effects} (hg : getResult p w d = (.error e, d1, eff)) :
    setStatus p w d = (.error e, d1, eff) := by
  unfold setStatus
  rw [hg]

/-- `setStatus` on an empty observation sequence: the `no weather data` error,
with the state exactly as `getResult` left it. -/
theorem setStatus_of_empty_data {p : Props} {w : World} {d d1 : Owm} {q : owmDataResponse}
    {eff : Effects} (hg : getResult p w d = (.ok q, d1, eff)) (hd : q.Data = []) :
    setStatus p w d = (.error (goStr "No data found"), d1, eff) := by
  unfold setStatus
  rw [hg]
  simp only [hd]

/-- `setStatus` on a non-empty observation sequence: success, and the four
derived fields as the source computes them. -/
theorem setStatus_of_data {p : Props} {w : World} {d d1 : Owm} {q : owmDataResponse}
    {eff : Effects} {w0 : weather} {rest : List weather}
    (hg : getResult p w d = (.ok q, d1, eff)) (hd : q.Data = w0 :: rest) :
    setStatus p w d =
      (.ok (),
        { d1 with
          Temperature := goRound q.temperature.Value
          Weather := iconOf w0.TypeID
          units := getString p UnitsKey (goStr "standard")
          UnitIcon := unitIconOf (getString p UnitsKey (goStr "standard")) },
        eff) := by
  unfold setStatus
  rw [hg]
  simp only [hd]

/-- `Enabled` on pipeline success. -/
theorem Enabled_of_ok {p : Props} {w : World} {d d1 : Owm} {eff : Effects}
    (hs : setStatus p w d = (.ok (), d1, eff)) : Enabled p w d = (true, d1, eff) := by
  unfold Enabled
  rw [hs]

/-- `Enabled` on pipeline failure: `false`, and the error is appended to the
diagnostic sink. -/
theorem Enabled_of_error {p : Props} {w : World} {d d1 : Owm} {e : GoStr} {eff : Effects}
    (hs : setStatus p w d = (.error e, d1, eff)) :
    Enabled p w d = (false, d1, { eff with errors := eff.errors ++ [e] }) := by
  unfold Enabled
  rw [hs]

/-! ### The claims -/

/-- Claim C1 (code bug evidence): the claim says an API key that resolves to
the empty string fails immediately with `no api key found` before any network
call — but the source hands `OneOf` the non-empty sentinel default `"."`
(line 104), so with no property and no environment variable set the key
resolves to `"."`, the guard does not fire, and an HTTP request with
`appid=.` is issued; indeed the resolved key can never be empty, making both
the `no api key found` failure and the `POSH_OWM_API_KEY` fallback that the
source's own comment promises unreachable. -/
theorem owm_missing_api_key_code_bug :
    getPropOrEnvVar props0 world0 PoshOWMAPIKey (goStr ".") [APIKey, "apiKey"] = goStr "." ∧
    (getResult props0 world0 owm0).2.2.httpCalls ≠ [] ∧
    (getResult props0 world0 owm0).1 = .error (goStr "boom") ∧
    ∀ (p : Props) (w : World),
      getPropOrEnvVar p w PoshOWMAPIKey (goStr ".") [APIKey, "apiKey"] ≠ [] := by
  refine ⟨by decide, by decide, rfl, fun p w => ?_⟩
  exact getPropOrEnvVar_ne_nil p w PoshOWMAPIKey [APIKey, "apiKey"] (by decide)

/-- Claim C2 counterexample: a successful run with `units = "unknown"` leaves
`UnitIcon` at the default glyph `\ue33e`, not `°K` as claimed. -/
theorem owm_unit_icon_counterexample :
    (setStatus props2 world2 owm0).1 = .ok () ∧
    getString props2 UnitsKey (goStr "standard") = goStr "unknown" ∧
    (setStatus props2 world2 owm0).2.1.UnitIcon ≠ goStr "°K" ∧
    (setStatus props2 world2 owm0).2.1.UnitIcon = goStr "\ue33e" := by
  exact ⟨rfl, rfl, by decide, rfl⟩

/-- Claim C2 (amended): after a successful pipeline run, `UnitIcon` is
determined solely by the resolved units string: `imperial` → `°F`, `metric` →
`°C`, the empty string and `standard` → `°K`, and every other value (such as
`unknown`) → the default glyph `\ue33e` (not `°K`). -/
theorem owm_unit_icon (p : Props) (w : World) (d d1 : Owm) (eff : Effects)
    (hs : setStatus p w d = (.ok (), d1, eff)) :
    d1.UnitIcon = unitIconOf (getString p UnitsKey (goStr "standard")) ∧
    unitIconOf (goStr "imperial") = goStr "°F" ∧
    unitIconOf (goStr "metric") = goStr "°C" ∧
    unitIconOf (goStr "") = goStr "°K" ∧
    unitIconOf (goStr "standard") = goStr "°K" ∧
    unitIconOf (goStr "unknown") = goStr "\ue33e" := by
  refine ⟨?_, by decide, by decide, by decide, by decide, by decide⟩
  rcases hg : getResult p w d with ⟨r, d2, eff2⟩
  cases r with
  | error e =>
    rw [setStatus_of_getResult_error hg] at hs
    exact absurd (congrArg Prod.fst hs) (by simp)
  | ok q =>
    rcases hd : q.Data with _ | ⟨w0, rest⟩
    · rw [setStatus_of_empty_data hg hd] at hs
      exact absurd (congrArg Prod.fst hs) (by simp)
    · rw [setStatus_of_data hg hd] at hs
      have := congrArg (fun t => t.2.1.UnitIcon) hs
      simpa using this.symm

/-- Claim C2 witness: the amended statement evaluated on a concrete
successful run. -/
theorem owm_unit_icon_witness :
    (setStatus props2 world2 owm0).2.1.UnitIcon =
      unitIconOf (getString props2 UnitsKey (goStr "standard")) ∧
    unitIconOf (goStr "imperial") = goStr "°F" ∧
    unitIconOf (goStr "metric") = goStr "°C" ∧
    unitIconOf (goStr "") = goStr "°K" ∧
    unitIconOf (goStr "standard") = goStr "°K" ∧
    unitIconOf (goStr "unknown") = goStr "\ue33e" := by
  exact owm_unit_icon props2 world2 owm0 (setStatus props2 world2 owm0).2.1
    (setStatus props2 world2 owm0).2.2 rfl

/-- Claim C3: the URL built on a cache miss is a total function of whether the
resolved location is non-empty — non-empty location gives exactly the
percent-encoded `q=` parameter (with `units` and `appid`) and no `lat=`/`lon=`
parameters; empty location gives exactly percent-encoded `lat=`/`lon=` (with
`units` and `appid`) and no `q=` parameter. -/
theorem owm_url_form (location lat lon units apikey : GoStr)
    (hu : 38 ∉ units) (ha : 38 ∉ apikey) :
    (location ≠ [] →
      queryParams (buildOwmURL location lat lon units apikey) =
        [(goStr "q", queryEscape location), (goStr "units", units), (goStr "appid", apikey)] ∧
      goStr "q" ∈ queryKeys (buildOwmURL location lat lon units apikey) ∧
      goStr "lat" ∉ queryKeys (buildOwmURL location lat lon units apikey) ∧
      goStr "lon" ∉ queryKeys (buildOwmURL location lat lon units apikey)) ∧
    (location = [] →
      queryParams (buildOwmURL location lat lon units apikey) =
        [(goStr "lat", queryEscape lat), (goStr "lon", queryEscape lon),
          (goStr "units", units), (goStr "appid", apikey)] ∧
      goStr "lat" ∈ queryKeys (buildOwmURL location lat lon units apikey) ∧
      goStr "lon" ∈ queryKeys (buildOwmURL location lat lon units apikey) ∧
      goStr "q" ∉ queryKeys (buildOwmURL location lat lon units apikey)) := by
  constructor
  · intro hne
    have hloc : location.length > 0 := List.length_pos.mpr hne
    have hp := queryParams_place lat lon hloc hu ha
    refine ⟨hp, ?_, ?_, ?_⟩ <;> simp only [queryKeys, hp, List.map] <;> decide
  · intro hnil
    subst hnil
    have hp := queryParams_coords [] lat lon (by simp) hu ha
    refine ⟨hp, ?_, ?_, ?_⟩ <;> simp only [queryKeys, hp, List.map] <;> decide

/-- Claim C3 witness: both URL forms evaluated on concrete inputs. -/
theorem owm_url_form_witness :
    queryParams (buildOwmURL (goStr "A") (goStr "1") (goStr "2") (goStr "metric") (goStr "k")) =
      [(goStr "q", queryEscape (goStr "A")), (goStr "units", goStr "metric"),
        (goStr "appid", goStr "k")] ∧
    queryParams (buildOwmURL (goStr "") (goStr "1") (goStr "2") (goStr "metric") (goStr "k")) =
      [(goStr "lat", queryEscape (goStr "1")), (goStr "lon", queryEscape (goStr "2")),
        (goStr "units", goStr "metric"), (goStr "appid", goStr "k")] := by
  constructor
  · exact ((owm_url_form (goStr "A") (goStr "1") (goStr "2") (goStr "metric") (goStr "k")
      (by decide) (by decide)).1 (by decide)).1
  · exact ((owm_url_form (goStr "") (goStr "1") (goStr "2") (goStr "metric") (goStr "k")
      (by decide) (by decide)).2 (by decide)).1

/-- Claim C4 counterexample: with a prior `URL` value, an empty-observation
response still fails with the empty-weather-data error, but the `URL` field —
one of the fields the claim says is unchanged — has been overwritten by
`getResult` before the check. -/
theorem owm_empty_data_counterexample :
    (setStatus props0 world4 d4).1 = .error (goStr "No data found") ∧
    (setStatus props0 world4 d4).2.1.URL ≠ d4.URL := by
  exact ⟨rfl, by decide⟩

/-- Claim C4 (amended): on an empty weather-observation sequence the
invocation fails with the empty-weather-data error regardless of the HTTP
outcome, and `Temperature`, `Weather` and `UnitIcon` keep their prior values;
`URL`, however, is reassigned by `getResult` (to the request or cached URL)
before the emptiness check. -/
theorem owm_empty_data (p : Props) (w : World) (d d1 : Owm) (q : owmDataResponse)
    (eff : Effects) (hg : getResult p w d = (.ok q, d1, eff)) (hd : q.Data = []) :
    setStatus p w d = (.error (goStr "No data found"), d1, eff) ∧
    d1.Temperature = d.Temperature ∧ d1.Weather = d.Weather ∧
    d1.UnitIcon = d.UnitIcon := by
  have hp := getResult_preserves p w d
  rw [hg] at hp
  exact ⟨setStatus_of_empty_data hg hd, hp.1, hp.2.1, hp.2.2.1⟩

/-- Claim C4 witness: the amended statement on a concrete empty-data run. -/
theorem owm_empty_data_witness :
    setStatus props0 world4 d4 =
      (.error (goStr "No data found"), (getResult props0 world4 d4).2.1,
        (getResult props0 world4 d4).2.2) ∧
    (getResult props0 world4 d4).2.1.Temperature = d4.Temperature ∧
    (getResult props0 world4 d4).2.1.Weather = d4.Weather ∧
    (getResult props0 world4 d4).2.1.UnitIcon = d4.UnitIcon := by
  exact owm_empty_data props0 world4 d4 (getResult props0 world4 d4).2.1 respEmpty
    (getResult props0 world4 d4).2.2 rfl rfl

/-- Claim C5: under the spec's first-non-empty property lookup, the location
`getPropOrEnvVar` resolves is never empty — the non-empty hardcoded default
`De Bilt,NL` is returned whenever the property yields nothing, before the
environment variable is ever consulted — so `getResult` always builds the
place-name (`q=`) URL and the coordinates branch is unreachable. -/
theorem owm_location_never_empty (p : Props) (w : World) (lat lon units apikey : GoStr) :
    getPropOrEnvVar p w PoshOWMLocationKey (goStr "De Bilt,NL") [Location] ≠ [] ∧
    getPropOrEnvVar p w PoshOWMLocationKey (goStr "De Bilt,NL") [Location] =
      oneOf p (goStr "De Bilt,NL") [Location] ∧
    buildOwmURL (getPropOrEnvVar p w PoshOWMLocationKey (goStr "De Bilt,NL") [Location])
        lat lon units apikey =
      goStr "https://api.openweathermap.org/data/2.5/weather?q=" ++
        queryEscape (getPropOrEnvVar p w PoshOWMLocationKey (goStr "De Bilt,NL") [Location]) ++
        goStr "&units=" ++ units ++ goStr "&appid=" ++ apikey := by
  have h := getPropOrEnvVar_ne_nil p w PoshOWMLocationKey [Location]
    (show goStr "De Bilt,NL" ≠ [] by decide)
  refine ⟨h, getPropOrEnvVar_eq_oneOf p w PoshOWMLocationKey [Location] (by decide), ?_⟩
  unfold buildOwmURL
  rw [if_pos (List.length_pos.mpr h)]

/-- Claim C6: the exposed `Temperature` is the temperature value rounded half
away from zero (`15.5 → 16`, `-15.5 → -16`, `15.4 → 15`). -/
theorem owm_temperature_rounding (p : Props) (w : World) (d d1 : Owm)
    (q : owmDataResponse) (eff : Effects) (w0 : weather) (rest : List weather)
    (hg : getResult p w d = (.ok q, d1, eff)) (hd : q.Data = w0 :: rest) :
    (setStatus p w d).2.1.Temperature = goRound q.temperature.Value ∧
    goRound (31 / 2 : ℚ) = 16 ∧ goRound (-(31 / 2) : ℚ) = -16 ∧
    goRound (77 / 5 : ℚ) = 15 := by
  refine ⟨?_, ?_, ?_, ?_⟩
  · rw [setStatus_of_data hg hd]
  · norm_num [goRound, Rat.floor]
  · norm_num [goRound, Rat.ceil]
  · norm_num [goRound, Rat.floor]

/-- Claim C6 witness: the rounding statement on a concrete successful run. -/
theorem owm_temperature_rounding_witness :
    (setStatus props2 world2 owm0).2.1.Temperature = goRound resp1.temperature.Value ∧
    goRound (31 / 2 : ℚ) = 16 ∧ goRound (-(31 / 2) : ℚ) = -16 ∧
    goRound (77 / 5 : ℚ) = 15 := by
  exact owm_temperature_rounding props2 world2 owm0 (getResult props2 world2 owm0).2.1
    resp1 (getResult props2 world2 owm0).2.2 obs1 [] rfl rfl

/-- Claim C7: caching is governed entirely by the cache-timeout property — a
non-positive value means the cache is neither read nor written and the
invocation performs exactly one network fetch; a positive value with a cache
miss and a successful fetch and parse writes both fixed keys together with the
configured TTL. -/
theorem owm_cache_gating (p : Props) (w : World) (d : Owm) :
    (getInt p CacheTimeout DefaultCacheTimeout ≤ 0 →
      (getResult p w d).2.2.cacheReads = [] ∧
      (getResult p w d).2.2.cacheWrites = [] ∧
      ∃ u, (getResult p w d).2.2.httpCalls = [u]) ∧
    (∀ (q : owmDataResponse) (d1 : Owm) (eff : Effects),
      0 < getInt p CacheTimeout DefaultCacheTimeout →
      w.cacheGet CacheKeyResponse = none →
      getResult p w d = (.ok q, d1, eff) →
      ∃ body, w.http d1.URL (getInt p HTTPTimeout DefaultHTTPTimeout) = .ok body ∧
        w.parse body = .ok q ∧
        eff.cacheWrites =
          [(CacheKeyResponse, body, getInt p CacheTimeout DefaultCacheTimeout),
            (CacheKeyURL, d1.URL, getInt p CacheTimeout DefaultCacheTimeout)]) := by
  constructor
  · intro hct
    have hct' : ¬getInt p CacheTimeout DefaultCacheTimeout > 0 := by omega
    unfold getResult
    simp only []
    rw [if_neg hct']
    unfold owmFetch
    simp only []
    have hakne := getPropOrEnvVar_ne_nil p w PoshOWMAPIKey [APIKey, "apiKey"]
      (show goStr "." ≠ [] by decide)
    generalize hak : getPropOrEnvVar p w PoshOWMAPIKey (goStr ".") [APIKey, "apiKey"] = ak
    rw [hak] at hakne
    have haklen : ¬ak.length = 0 := by simpa [List.length_eq_zero] using hakne
    rw [if_neg haklen]
    generalize buildOwmURL (getPropOrEnvVar p w PoshOWMLocationKey (goStr "De Bilt,NL") [Location])
      (getPropOrEnvVar p w PoshOWMLatKey (goStr "0") [Latitude])
      (getPropOrEnvVar p w PoshOWMLonKey (goStr "0") [Longitude])
      (getString p UnitsKey (goStr "standard")) ak = url
    rcases hh : w.http url (getInt p HTTPTimeout DefaultHTTPTimeout) with e | body
    · exact ⟨by simp [hh], by simp [hh], url, by simp [hh]⟩
    · rcases hp : w.parse body with e | resp
      · exact ⟨by simp [hh, hp], by simp [hh, hp], url, by simp [hh, hp]⟩
      · exact ⟨by simp [hh, hp, hct'], by simp [hh, hp, hct'], url, by simp [hh, hp, hct']⟩
  · intro q d1 eff hct hmiss hres
    unfold getResult at hres
    simp only [] at hres
    rw [if_pos hct] at hres
    simp only [hmiss] at hres
    unfold owmFetch at hres
    simp only [] at hres
    by_cases haklen :
        (getPropOrEnvVar p w PoshOWMAPIKey (goStr ".") [APIKey, "apiKey"]).length = 0
    · rw [if_pos haklen] at hres
      exact absurd (congrArg (fun t => t.1) hres) (by simp)
    · rw [if_neg haklen] at hres
      rcases hh : w.http
          (buildOwmURL (getPropOrEnvVar p w PoshOWMLocationKey (goStr "De Bilt,NL") [Location])
            (getPropOrEnvVar p w PoshOWMLatKey (goStr "0") [Latitude])
            (getPropOrEnvVar p w PoshOWMLonKey (goStr "0") [Longitude])
            (getString p UnitsKey (goStr "standard"))
            (getPropOrEnvVar p w PoshOWMAPIKey (goStr ".") [APIKey, "apiKey"]))
          (getInt p HTTPTimeout DefaultHTTPTimeout) with e | body
      · simp only [hh] at hres
        exact absurd (congrArg (fun t => t.1) hres) (by simp)
      · simp only [hh] at hres
        rcases hp : w.parse body with e | resp
        · simp only [hp] at hres
          exact absurd (congrArg (fun t => t.1) hres) (by simp)
        · simp only [hp] at hres
          rw [if_pos hct] at hres
          have h1 := congrArg (fun t => t.1) hres
          have h2 := congrArg (fun t => t.2.1) hres
          have h3 := congrArg (fun t => t.2.2) hres
          simp only [] at h1 h2 h3
          injection h1 with hq
          subst hq
          subst h2
          subst h3
          exact ⟨body, by simpa using hh, hp, by simp⟩

/-- Claim C7 witness: both cases evaluated — a zero cache timeout yields no
cache traffic and one fetch; the default (positive) timeout on a miss writes
both keys with the TTL. -/
theorem owm_cache_gating_witness :
    ((getResult propsCT0 world4 owm0).2.2.cacheReads = [] ∧
      (getResult propsCT0 world4 owm0).2.2.cacheWrites = [] ∧
      ∃ u, (getResult propsCT0 world4 owm0).2.2.httpCalls = [u]) ∧
    (∃ body, world4.http ((getResult props0 world4 owm0).2.1).URL
        (getInt props0 HTTPTimeout DefaultHTTPTimeout) = .ok body ∧
      world4.parse body = .ok respEmpty ∧
      (getResult props0 world4 owm0).2.2.cacheWrites =
        [(CacheKeyResponse, body, getInt props0 CacheTimeout DefaultCacheTimeout),
          (CacheKeyURL, ((getResult props0 world4 owm0).2.1).URL,
            getInt props0 CacheTimeout DefaultCacheTimeout)]) := by
  constructor
  · exact (owm_cache_gating propsCT0 world4 owm0).1 (by decide)
  · exact (owm_cache_gating props0 world4 owm0).2 respEmpty
      (getResult props0 world4 owm0).2.1 (getResult props0 world4 owm0).2.2
      (by decide) rfl rfl

/-- Claim C8: on a cache hit, a failing deserialization of the cached value is
the invocation's error — no HTTP request, no fall-through to a fetch; on a
successful deserialization the cached response is returned with no HTTP
request, and `owm_url` is read best-effort (its absence yields an empty URL,
not a failure). -/
theorem owm_cache_hit (p : Props) (w : World) (d : Owm) (val : GoStr)
    (h1 : 0 < getInt p CacheTimeout DefaultCacheTimeout)
    (h2 : w.cacheGet CacheKeyResponse = some val) :
    (∀ e, w.parse val = .error e →
      getResult p w d = (.error e, d, ⟨[CacheKeyResponse], [], [], []⟩)) ∧
    (∀ r, w.parse val = .ok r →
      getResult p w d =
        (.ok r, { d with URL := (w.cacheGet CacheKeyURL).getD [] },
          ⟨[CacheKeyResponse, CacheKeyURL], [], [], []⟩)) := by
  constructor
  · intro e he
    unfold getResult
    simp only []
    rw [if_pos h1]
    simp only [h2, he]
  · intro r hr
    unfold getResult
    simp only []
    rw [if_pos h1]
    simp only [h2, hr]

/-- Claim C8 witness: both cache-hit outcomes evaluated — corrupt entry
reported with no fetch; good entry returned with no fetch and a missing
`owm_url` tolerated. -/
theorem owm_cache_hit_witness :
    getResult props0 world8 owm0 =
      (.error (goStr "bad json"), owm0, ⟨[CacheKeyResponse], [], [], []⟩) ∧
    getResult props0 world2 owm0 =
      (.ok resp1, { owm0 with URL := (world2.cacheGet CacheKeyURL).getD [] },
        ⟨[CacheKeyResponse, CacheKeyURL], [], [], []⟩) := by
  constructor
  · exact (owm_cache_hit props0 world8 owm0 (goStr "junk") (by decide) rfl).1
      (goStr "bad json") rfl
  · exact (owm_cache_hit props0 world2 owm0 (goStr "cached") (by decide) rfl).2 resp1 rfl

/-- Claim C9: the `Weather` glyph is an exact-match lookup of the first
observation's type code against the fixed table — `01d` yields the clear-day
glyph `\ue30d`, and a code absent from the table such as `99x` yields the
empty string, not an error. -/
theorem owm_weather_glyph (p : Props) (w : World) (d d1 : Owm) (q : owmDataResponse)
    (eff : Effects) (w0 : weather) (rest : List weather)
    (hg : getResult p w d = (.ok q, d1, eff)) (hd : q.Data = w0 :: rest) :
    (setStatus p w d).2.1.Weather = iconOf w0.TypeID ∧
    iconOf (goStr "01d") = goStr "\ue30d" ∧
    iconOf (goStr "99x") = goStr "" := by
  refine ⟨?_, by decide, by decide⟩
  rw [setStatus_of_data hg hd]

/-- Claim C9 witness: the glyph statement on a concrete run whose first
observation carries type code `01d`. -/
theorem owm_weather_glyph_witness :
    (setStatus props2 world2 owm0).2.1.Weather = iconOf obs1.TypeID ∧
    iconOf (goStr "01d") = goStr "\ue30d" ∧
    iconOf (goStr "99x") = goStr "" := by
  exact owm_weather_glyph props2 world2 owm0 (getResult props2 world2 owm0).2.1
    resp1 (getResult props2 world2 owm0).2.2 obs1 [] rfl rfl

/-- Claim C10: `Enabled` returns `true` exactly when the pipeline returns no
error; on any error it reports the error to the diagnostic sink and returns
`false` — by its boolean return type the error is never propagated to the
caller. -/
theorem owm_enabled_collapse (p : Props) (w : World) (d : Owm) :
    ((Enabled p w d).1 = true ↔ (setStatus p w d).1 = .ok ()) ∧
    (∀ e, (setStatus p w d).1 = .error e →
      (Enabled p w d).1 = false ∧
      (Enabled p w d).2.2.errors = (setStatus p w d).2.2.errors ++ [e]) := by
  rcases hs : setStatus p w d with ⟨r, d1, eff⟩
  cases r with
  | ok u =>
    cases u
    rw [Enabled_of_ok hs]
    constructor <;> simp
  | error e =>
    rw [Enabled_of_error hs]
    constructor
    · simp
    · intro e' he'
      simp only [Except.error.injEq] at he'
      subst he'
      simp

/-- Claim C10 witness: a failing run collapses to `false` with the error
reported, and a succeeding run yields `true`. -/
theorem owm_enabled_collapse_witness :
    ((Enabled props0 world0 owm0).1 = false ∧
      (Enabled props0 world0 owm0).2.2.errors =
        (setStatus props0 world0 owm0).2.2.errors ++ [goStr "boom"]) ∧
    (Enabled props2 world2 owm0).1 = true := by
  constructor
  · exact (owm_enabled_collapse props0 world0 owm0).2 (goStr "boom") rfl
  · exact (owm_enabled_collapse props2 world2 owm0).1.mpr rfl
